import Mathlib

/-!
# Verification of tretool's pyToExe build pipeline

Shallow embedding of src/tretool/pyToExe.py (class PyToExeBuilder).

Modelling conventions:
* A filesystem path is a list of components of an absolute path
  (pathlib's Path.absolute is the identity here: inputs are taken already
  absolute, which is immaterial to every property below).
* The filesystem is an explicit state: the set of existing directories and
  the set of existing files.  Stateful Python calls become functions that
  take and return an FS.  A raised Python exception becomes an Except error;
  when a method mutates self before raising (set_icon), the post-state of
  the object is returned alongside the error, as in Python where the
  mutation of the instance survives the exception.
* platform.system() is a parameter of each operation that reads it.
* External processes are oracles: the pipreqs run is represented by the
  optional content of the requirements file it produced (none = the
  subprocess or the file read raised, which the source catches and turns
  into a printed warning); PyInstaller is represented by an import
  availability flag plus a function from the argument vector to the list
  of file paths the backend writes under the workspace.
* Python str operations (strip, startswith, split) are re-implemented by
  structural recursion on the character list so that concrete instances
  evaluate by kernel reduction.
* print calls have no modelled effect.
-/

set_option autoImplicit false

deriving instance DecidableEq for Except

deriving instance Repr for Except

namespace PyTretool

/-- An absolute filesystem path, as its list of components. -/
abbrev FsPath := List String

/-- Posix-style rendering of a path, modelling str(Path(...)).  The
separator choice (Windows uses a backslash and a drive) is immaterial to
the properties proved below, which treat rendered paths as opaque strings. -/
def pathStr (p : FsPath) : String :=
  String.intercalate "/" ("" :: p)

/-- The last component, modelling pathlib's Path.name. -/
def pathName (p : FsPath) : String :=
  p.getLastD ""

/-- The result of platform.system(). -/
inductive Platform where
  | windows
  | linux
  | darwin
  | other (s : String)
deriving DecidableEq, Repr

/-- The string platform.system() returned. -/
def Platform.name : Platform → String
  | .windows => "Windows"
  | .linux => "Linux"
  | .darwin => "Darwin"
  | .other s => s

/-- Membership in the source's supported list: Windows, Linux, Darwin. -/
def Platform.isSupported : Platform → Bool
  | .other _ => false
  | _ => true

/-- os.pathsep of the host. -/
def pathsep : Platform → String
  | .windows => ";"
  | _ => ":"

/-- The Python exceptions pyToExe.py can raise, plus StopIteration which
next() raises on an exhausted glob iterator. -/
inductive PyError where
  | fileNotFoundError (msg : String)
  | valueError (msg : String)
  | notImplementedError (msg : String)
  | runtimeError (msg : String)
  | attributeError (msg : String)
  | fileExistsError (msg : String)
  | stopIteration
deriving DecidableEq, Repr

/-- Whether an error is a FileNotFoundError. -/
def PyError.isFileNotFound : PyError → Bool
  | .fileNotFoundError _ => true
  | _ => false

/-- Whether an Except value is a success. -/
def exceptOk {ε α : Type} : Except ε α → Bool
  | .ok _ => true
  | .error _ => false

/-- The filesystem state: existing directories and existing files. -/
structure FS where
  dirs : List FsPath
  files : List FsPath
deriving DecidableEq, Repr

/-- Path.exists(): the path names an existing directory or file. -/
def FS.existsPath (fs : FS) (p : FsPath) : Bool :=
  decide (p ∈ fs.dirs) || decide (p ∈ fs.files)

/-- tempfile.mkdtemp: the operating system creates a fresh directory and
returns its path; the chosen path is a parameter here. -/
def FS.mkdtemp (fs : FS) (p : FsPath) : FS :=
  { fs with dirs := p :: fs.dirs }

/-- Path.mkdir(exist_ok=True): succeeds if the directory already exists,
raises FileExistsError if a file occupies the path, raises
FileNotFoundError if the parent directory is missing. -/
def FS.mkdirExistOk (fs : FS) (p : FsPath) : Except PyError FS :=
  if p ∈ fs.dirs then .ok fs
  else if p ∈ fs.files then .error (.fileExistsError ("mkdir: " ++ pathStr p))
  else if p.dropLast ∈ fs.dirs then .ok { fs with dirs := p :: fs.dirs }
  else .error (.fileNotFoundError ("mkdir: " ++ pathStr p))

/-- shutil.copy2(src, dstDir) where dstDir is a directory: the file lands
at dstDir/src.name; raises FileNotFoundError when the source file or the
destination directory is missing. -/
def FS.copy2Into (fs : FS) (src dstDir : FsPath) : Except PyError FS :=
  if src ∈ fs.files then
    if dstDir ∈ fs.dirs then
      .ok { fs with files := (dstDir ++ [pathName src]) :: fs.files }
    else .error (.fileNotFoundError ("copy2: " ++ pathStr dstDir))
  else .error (.fileNotFoundError ("copy2: " ++ pathStr src))

/-- open(p, 'w') followed by a write: the file exists afterwards.  In the
source this is only reached with the parent directory already present. -/
def FS.writeFile (fs : FS) (p : FsPath) : FS :=
  { fs with files := p :: fs.files }

/-- The files an external tool wrote, added to the filesystem. -/
def FS.addFiles (fs : FS) (ps : List FsPath) : FS :=
  { fs with files := ps ++ fs.files }

/-- shutil.rmtree: removes the root and everything below it. -/
def FS.rmtree (fs : FS) (root : FsPath) : FS :=
  { dirs := fs.dirs.filter (fun q => ! root.isPrefixOf q),
    files := fs.files.filter (fun q => ! root.isPrefixOf q) }

/-- Python truthiness of an optional string: None and the empty string are
falsy; used for the `x or default` idiom of the source. -/
def pyOrStr (x : Option String) (d : String) : String :=
  match x with
  | none => d
  | some s => if s = "" then d else s

/-- The index of the last '.' in a list of characters, str.rfind('.'). -/
def rfindDot : List Char → Option Nat
  | [] => none
  | c :: cs =>
    match rfindDot cs with
    | some i => some (i + 1)
    | none => if c = '.' then some 0 else none

/-- pathlib's stem/suffix split of a file name: the suffix starts at the
last dot when that dot is neither the first nor the last character,
otherwise the suffix is empty. -/
def pySplitExt (name : String) : String × String :=
  match rfindDot name.data with
  | none => (name, "")
  | some i =>
    if 0 < i ∧ i + 1 < name.data.length then
      (String.mk (name.data.take i), String.mk (name.data.drop i))
    else (name, "")

/-- Path.stem of a file name. -/
def pyStem (name : String) : String := (pySplitExt name).1

/-- Path.suffix of a file name. -/
def pySuffix (name : String) : String := (pySplitExt name).2

/-- The whitespace characters str.strip removes (ASCII subset). -/
def isPySpace (c : Char) : Bool :=
  c = ' ' ∨ c = '\t' ∨ c = '\n' ∨ c = '\r' ∨ c = '\x0b' ∨ c = '\x0c'

/-- str.strip(). -/
def pyStrip (s : String) : String :=
  String.mk (((s.data.dropWhile isPySpace).reverse.dropWhile isPySpace).reverse)

/-- str.startswith('#'). -/
def startsWithHash (s : String) : Bool :=
  match s.data with
  | '#' :: _ => true
  | _ => false

/-- The characters before the first occurrence of "==". -/
def takeUntilEqEq : List Char → List Char
  | [] => []
  | '=' :: '=' :: _ => []
  | c :: cs => c :: takeUntilEqEq cs

/-- line.split('==')[0]. -/
def splitEqEqHead (s : String) : String :=
  String.mk (takeUntilEqEq s.data)

/-- Splitting a character list on a separator character. -/
def splitOnChar (sep : Char) : List Char → List (List Char)
  | [] => [[]]
  | c :: cs =>
    let r := splitOnChar sep cs
    if c = sep then [] :: r
    else
      match r with
      | [] => [[c]]
      | l :: ls => (c :: l) :: ls

/-- The lines of a file's content, modelling iteration over a text file
(the trailing newline kept by Python's iteration is stripped by the
str.strip the source applies to every line). -/
def splitLines (content : String) : List String :=
  (splitOnChar '\n' content.data).map String.mk

/-- The body of the requirements-parsing loop of detect_dependencies:
skip the line when its stripped form is empty or starts with '#',
otherwise append the part before the version pin. -/
def manifestStep (acc : List String) (line : String) : List String :=
  let l := pyStrip line
  if l ≠ "" ∧ startsWithHash l = false then acc ++ [splitEqEqHead l] else acc

/-- The package names the detect_dependencies loop extracts from a
requirements manifest, in manifest order. -/
def manifestNames (content : String) : List String :=
  (splitLines content).foldl manifestStep []

/-- The version_info dict set_version_info builds.  The source stores a
Python dict; an absent dict (the initial {}) is the none case of the
option, matching the dict's falsiness in the `if self.version_info` tests. -/
structure VersionInfo where
  version : String
  company : String
  description : String
  copyright : String
deriving DecidableEq, Repr

/-- An entry of extra_files: a bare path string, or a (source,
destination) pair. -/
inductive DataFile where
  | bare (s : String)
  | pair (src dest : String)
deriving DecidableEq, Repr

/-- The fields of a PyToExeBuilder instance. -/
structure PyToExeBuilder where
  script_path : FsPath
  output_name : String
  work_dir : FsPath
  dependencies : List String
  extra_files : List DataFile
  icon_path : Option FsPath
  version_info : Option VersionInfo
  console : Bool
deriving DecidableEq, Repr

namespace PyToExeBuilder

/-- _validate_environment: script must exist, must carry the .py suffix,
and the host platform must be one of Windows, Linux, Darwin; checked in
that order, each failure raising the source's exception. -/
def validate_environment (b : PyToExeBuilder) (host : Platform) (fs : FS) :
    Except PyError Unit :=
  if fs.existsPath b.script_path = false then
    .error (.fileNotFoundError ("主脚本不存在: " ++ pathStr b.script_path))
  else if pySuffix (pathName b.script_path) ≠ ".py" then
    .error (.valueError "输入文件必须是.py脚本")
  else if host.isSupported = false then
    .error (.notImplementedError ("不支持的操作系统: " ++ host.name))
  else .ok ()

/-- The work_dir __init__ picks: the caller's when supplied, otherwise the
directory tempfile.mkdtemp created. -/
def initWorkDir (tempDir : FsPath) (work_dir : Option FsPath) : FsPath :=
  match work_dir with
  | some p => p
  | none => tempDir

/-- The field assignments __init__ performs before validation: the output
name falls back to the script's stem when the argument is None or empty
(Python truthiness of `output_name or self.script_path.stem`), and the
remaining fields start empty with the console flag set. -/
def initBuilder (tempDir : FsPath) (script_path : FsPath)
    (output_name : Option String) (work_dir : Option FsPath) : PyToExeBuilder :=
  ⟨script_path, pyOrStr output_name (pyStem (pathName script_path)),
   initWorkDir tempDir work_dir, [], [], none, none, true⟩

/-- The filesystem after __init__'s work_dir line: unchanged when a
work_dir was supplied, otherwise tempfile.mkdtemp has created the fresh
scratch directory. -/
def initFS (fs : FS) (tempDir : FsPath) (work_dir : Option FsPath) : FS :=
  match work_dir with
  | some _ => fs
  | none => fs.mkdtemp tempDir

/-- __init__: set the fields, creating the scratch directory via
tempfile.mkdtemp when no work_dir was supplied, then run
_validate_environment.  The filesystem after the call is returned even
when validation raises, since the mkdtemp side effect survives the
exception.  tempDir is the fresh path mkdtemp would pick. -/
def init (host : Platform) (fs : FS) (tempDir : FsPath) (script_path : FsPath)
    (output_name : Option String) (work_dir : Option FsPath) :
    Except PyError PyToExeBuilder × FS :=
  match (initBuilder tempDir script_path output_name work_dir).validate_environment
      host (initFS fs tempDir work_dir) with
  | .ok _ => (.ok (initBuilder tempDir script_path output_name work_dir),
              initFS fs tempDir work_dir)
  | .error e => (.error e, initFS fs tempDir work_dir)

/-- add_dependencies: extends the dependency list. -/
def add_dependencies (b : PyToExeBuilder) (packages : List String) :
    PyToExeBuilder :=
  { b with dependencies := b.dependencies ++ packages }

/-- add_data_files: extends the extra-files list. -/
def add_data_files (b : PyToExeBuilder) (files : List DataFile) :
    PyToExeBuilder :=
  { b with extra_files := b.extra_files ++ files }

/-- set_icon: assigns self.icon_path first, then checks existence and
raises FileNotFoundError when the file is missing.  The second component
is the state of the instance after the call, which keeps the assignment
even on the error path. -/
def set_icon (b : PyToExeBuilder) (icon_path : FsPath) (fs : FS) :
    Except PyError PyToExeBuilder × PyToExeBuilder :=
  let b1 := { b with icon_path := some icon_path }
  if fs.existsPath icon_path = false then
    (.error (.fileNotFoundError ("图标文件不存在: " ++ pathStr icon_path)), b1)
  else (.ok b1, b1)

/-- set_version_info: fills the version_info dict, defaulting company to
"Unknown", description to the output name, and synthesizing the copyright
line from the (possibly defaulted) company. -/
def set_version_info (b : PyToExeBuilder) (version : String)
    (company description copyright : Option String) : PyToExeBuilder :=
  let vi : VersionInfo :=
    { version := version
      company := pyOrStr company "Unknown"
      description := pyOrStr description b.output_name
      copyright := pyOrStr copyright ("Copyright © " ++ pyOrStr company "Unknown") }
  { b with version_info := some vi }

/-- hide_console: clears the console flag. -/
def hide_console (b : PyToExeBuilder) : PyToExeBuilder :=
  { b with console := false }

/-- detect_dependencies: runs pipreqs and folds the parsed requirement
names into self.dependencies; any exception is caught, printed as a
warning and ignored.  manifest is the content of the requirements file
pipreqs wrote, or none when the subprocess or the read raised. -/
def detect_dependencies (b : PyToExeBuilder) (manifest : Option String) :
    PyToExeBuilder :=
  match manifest with
  | none => b
  | some content =>
    { b with dependencies := (splitLines content).foldl manifestStep b.dependencies }

/-- _prepare_build_env: create build/ and dist/ under the work directory,
copy the script into the work directory, and on Windows with version info
present serialize it to version_info.txt. -/
def prepare_build_env (b : PyToExeBuilder) (host : Platform) (fs : FS) :
    Except PyError Unit × FS :=
  match fs.mkdirExistOk (b.work_dir ++ ["build"]) with
  | .error e => (.error e, fs)
  | .ok fs1 =>
    match fs1.mkdirExistOk (b.work_dir ++ ["dist"]) with
    | .error e => (.error e, fs1)
    | .ok fs2 =>
      match fs2.copy2Into b.script_path b.work_dir with
      | .error e => (.error e, fs2)
      | .ok fs3 =>
        if host = .windows ∧ b.version_info.isSome then
          (.ok (), fs3.writeFile (b.work_dir ++ ["version_info.txt"]))
        else (.ok (), fs3)

/-- The argument vector _build_with_pyinstaller assembles, in source
order: script copy, name, work/dist/spec paths, the script directory as
add-data, then the conditional onefile, windowed, icon and version-file
flags, one hidden-import per dependency and one add-data per extra file. -/
def pyinstaller_args (b : PyToExeBuilder) (host : Platform) (onefile : Bool) :
    List String :=
  [pathStr (b.work_dir ++ [pathName b.script_path]),
   "--name", b.output_name,
   "--workpath", pathStr (b.work_dir ++ ["build"]),
   "--distpath", pathStr (b.work_dir ++ ["dist"]),
   "--specpath", pathStr b.work_dir,
   "--add-data", pathStr b.script_path.dropLast ++ pathsep host ++ "."]
  ++ (if onefile then ["--onefile"] else [])
  ++ (if b.console then [] else ["--windowed"])
  ++ (match b.icon_path with
      | some p => ["--icon", pathStr p]
      | none => [])
  ++ (if b.version_info.isSome then
        ["--version-file", pathStr (b.work_dir ++ ["version_info.txt"])]
      else [])
  ++ b.dependencies.foldr (fun d acc => "--hidden-import" :: d :: acc) []
  ++ b.extra_files.foldr
      (fun f acc =>
        match f with
        | .pair s d => "--add-data" :: (s ++ pathsep host ++ d) :: acc
        | .bare s => "--add-data" :: (s ++ pathsep host ++ ".") :: acc) []

/-- _find_output_file: in onefile mode, next() over a glob for the output
name (with .exe on Windows) directly under dist/, raising StopIteration
when nothing matches; in directory mode, the constructed path
dist/name/name[.exe] is returned without any existence check.  Glob
patterns are taken literally (an output name with glob metacharacters is
not modelled). -/
def find_output_file (b : PyToExeBuilder) (host : Platform) (fs : FS)
    (onefile : Bool) : Except PyError FsPath :=
  let dist := b.work_dir ++ ["dist"]
  if onefile then
    if host = .windows then
      if fs.existsPath (dist ++ [b.output_name ++ ".exe"]) then
        .ok (dist ++ [b.output_name ++ ".exe"])
      else .error .stopIteration
    else
      if fs.existsPath (dist ++ [b.output_name]) then
        .ok (dist ++ [b.output_name])
      else .error .stopIteration
  else
    if host = .windows then .ok (dist ++ [b.output_name, b.output_name ++ ".exe"])
    else .ok (dist ++ [b.output_name, b.output_name])

/-- _build_with_pyinstaller: raise RuntimeError when the PyInstaller
module cannot be imported; otherwise assemble the argument vector, run the
backend (modelled by the files it writes as a function of the arguments),
and locate the output file. -/
def build_with_pyinstaller (b : PyToExeBuilder) (host : Platform)
    (avail : Bool) (run : List String → List FsPath) (fs : FS)
    (onefile : Bool) : Except PyError FsPath × FS :=
  if avail then
    let fs1 := fs.addFiles (run (b.pyinstaller_args host onefile))
    (b.find_output_file host fs1 onefile, fs1)
  else
    (.error (.runtimeError "请先安装PyInstaller: pip install pyinstaller"), fs)

/-- _cleanup: recursively remove the work directory when it exists. -/
def cleanup (b : PyToExeBuilder) (fs : FS) : FS :=
  if fs.existsPath b.work_dir then fs.rmtree b.work_dir else fs

/-- build: prepare the workspace, dispatch on platform.system() — the
Linux and Darwin branches call self._build_with_linux and
self._build_with_mac, methods the class never defines, so Python raises
AttributeError there — then clean up on success when clean is set. -/
def build (b : PyToExeBuilder) (host : Platform) (avail : Bool)
    (run : List String → List FsPath) (fs : FS) (onefile clean : Bool) :
    Except PyError FsPath × FS :=
  match b.prepare_build_env host fs with
  | (.error e, fs1) => (.error e, fs1)
  | (.ok _, fs1) =>
    match (if host = .windows then b.build_with_pyinstaller host avail run fs1 onefile
      else if host = .linux then (.error (.attributeError "_build_with_linux"), fs1)
      else if host = .darwin then (.error (.attributeError "_build_with_mac"), fs1)
      else (.error (.notImplementedError "不支持的操作系统"), fs1)) with
    | (.error e, fs2) => (.error e, fs2)
    | (.ok out, fs2) => (.ok out, if clean then b.cleanup fs2 else fs2)

end PyToExeBuilder

/-- A configuration call on a request, for stating invariants over every
sequence of operations the fluent surface offers.  The icon case records
the filesystem the call saw and keeps the post-call instance state whether
or not the call raised. -/
inductive ConfigOp where
  | addDeps (packages : List String)
  | addData (files : List DataFile)
  | icon (fs : FS) (p : FsPath)
  | version (v : String) (company description copyright : Option String)
  | hideCons
  | detect (manifest : Option String)

/-- Apply one configuration call to the instance, keeping the post-call
state also when the call raised. -/
def applyOp (o : ConfigOp) (b : PyToExeBuilder) : PyToExeBuilder :=
  match o with
  | .addDeps ps => b.add_dependencies ps
  | .addData fl => b.add_data_files fl
  | .icon fs p => (b.set_icon p fs).2
  | .version v c d cr => b.set_version_info v c d cr
  | .hideCons => b.hide_console
  | .detect m => b.detect_dependencies m

/-- Apply a sequence of configuration calls in order. -/
def applyOps (ops : List ConfigOp) (b : PyToExeBuilder) : PyToExeBuilder :=
  ops.foldl (fun x o => applyOp o x) b

/-- Whether the two given strings occur adjacently, in order, in the
argument list: the shape in which _build_with_pyinstaller passes a flag
with its value. -/
def hasArgPair (k v : String) : List String → Bool
  | x :: y :: rest => (decide (x = k) && decide (y = v)) || hasArgPair k v (y :: rest)
  | _ => false

/-- A validated request used to exercise the pipeline on concrete
inputs: script /s/app.py, output name app, work directory /w. -/
def wbuilder : PyToExeBuilder :=
  ⟨["s", "app.py"], "app", ["w"], [], [], none, none, true⟩

/-- A concrete filesystem holding the work directory and the script. -/
def wfs : FS := ⟨[["w"]], [["s", "app.py"]]⟩

/-- A backend run that writes nothing. -/
def runNone : List String → List FsPath := fun _ => []

/-- A backend run that writes the onefile Windows artifact of wbuilder. -/
def runApp : List String → List FsPath := fun _ => [["w", "dist", "app.exe"]]

/-! ## Helper lemmas -/

open PyToExeBuilder

theorem pyOrStr_ne_empty (x : Option String) (d : String) (hd : d ≠ "") :
    pyOrStr x d ≠ "" := by
  cases x with
  | none => exact hd
  | some s =>
    show (if s = "" then d else s) ≠ ""
    by_cases hs : s = ""
    · rw [if_pos hs]; exact hd
    · rw [if_neg hs]; exact hs

theorem pyStem_ne_empty (n : String) (h : pySuffix n = ".py") : pyStem n ≠ "" := by
  unfold pySuffix pySplitExt at h
  unfold pyStem pySplitExt
  cases hr : rfindDot n.data with
  | none =>
    rw [hr] at h
    simp at h
  | some i =>
    rw [hr] at h
    dsimp only at h ⊢
    by_cases hc : 0 < i ∧ i + 1 < n.data.length
    · rw [if_pos hc]
      dsimp only
      intro hcontra
      have hdata : n.data.take i = [] := by
        have h2 := congrArg String.data hcontra
        simpa using h2
      have hlen := congrArg List.length hdata
      rw [List.length_take] at hlen
      simp only [List.length_nil] at hlen
      rcases Nat.min_eq_zero_iff.mp hlen with h0 | h0 <;> omega
    · rw [if_neg hc] at h
      dsimp only at h
      simp at h

theorem manifestStep_eq (a : List String) (x : String) :
    manifestStep a x = a ++ manifestStep [] x := by
  unfold manifestStep
  dsimp only
  split
  · simp
  · simp

theorem foldl_manifestStep (L : List String) (a : List String) :
    L.foldl manifestStep a = a ++ L.foldl manifestStep [] := by
  induction L generalizing a with
  | nil => simp
  | cons x t ih =>
    simp only [List.foldl_cons]
    rw [ih (manifestStep a x), ih (manifestStep [] x), manifestStep_eq a x,
      List.append_assoc]

theorem init_snd (host : Platform) (fs : FS) (tempDir sp : FsPath)
    (oname : Option String) (wdOpt : Option FsPath) :
    (PyToExeBuilder.init host fs tempDir sp oname wdOpt).2
      = initFS fs tempDir wdOpt := by
  unfold PyToExeBuilder.init
  cases hv : (initBuilder tempDir sp oname wdOpt).validate_environment host
      (initFS fs tempDir wdOpt) <;> rfl

/-! ## Claim theorems -/

/-- C7: for every request, setVersionInfo with version "1.0" and no
company, description or copyright yields company "Unknown", description
equal to the output name, and copyright "Copyright © Unknown" synthesized
from the defaulted company. -/
theorem C7_set_version_info_defaults (b : PyToExeBuilder) :
    (b.set_version_info "1.0" none none none).version_info
      = some ⟨"1.0", "Unknown", b.output_name, "Copyright © Unknown"⟩ := rfl

/-- C10: constructing with the empty string as output name behaves exactly
like leaving it unspecified — the empty string is falsy in the
`output_name or stem` fallback, so the name becomes the script stem. -/
theorem C10_empty_output_name (host : Platform) (fs : FS) (tempDir sp : FsPath)
    (wdOpt : Option FsPath) :
    PyToExeBuilder.init host fs tempDir sp (some "") wdOpt
      = PyToExeBuilder.init host fs tempDir sp none wdOpt := rfl

/-- C6: detect_dependencies appends to the existing dependency list
exactly the manifest's package names — non-empty, non-comment lines cut at
the version-pin delimiter — in manifest order, and on the spec's example
manifest that list is ["requests", "numpy"]. -/
theorem C6_detect_dependencies (b : PyToExeBuilder) (content : String) :
    (b.detect_dependencies (some content)).dependencies
      = b.dependencies ++ manifestNames content
    ∧ manifestNames "requests==2.31.0\n# comment\n\nnumpy"
      = ["requests", "numpy"] := by
  constructor
  · show (splitLines content).foldl manifestStep b.dependencies = _
    rw [foldl_manifestStep]
    rfl
  · decide

/-- C1, counterexample: with the work_dir argument left to default (the
common case), __init__ calls tempfile.mkdtemp before validation, so after
a validation failure on a missing script the request's scratch workDir
(the mkdtemp directory) does exist on disk — against the claim that no
workspace directory exists after a failed validation.  Concretely: empty
filesystem, missing script /home/main.py, mkdtemp picks
/tmp/py2exe_abcd1234. -/
theorem C1_counterexample :
    (PyToExeBuilder.init .linux ⟨[], []⟩ ["tmp", "py2exe_abcd1234"]
        ["home", "main.py"] none none).1
      = .error (.fileNotFoundError ("主脚本不存在: " ++ pathStr ["home", "main.py"]))
    ∧ (PyToExeBuilder.init .linux ⟨[], []⟩ ["tmp", "py2exe_abcd1234"]
        ["home", "main.py"] none none).2.existsPath
        (initWorkDir ["tmp", "py2exe_abcd1234"] none) = true := by
  exact ⟨rfl, rfl⟩

/-- C1, amended: a missing script always fails construction with
FileNotFoundError; an explicitly supplied workDir leaves the filesystem
untouched (nothing is created), but a defaulted workDir has already been
created by tempfile.mkdtemp during construction, so it exists on disk
after the failed call. -/
theorem C1_amended (host : Platform) (fs : FS) (tempDir sp : FsPath)
    (oname : Option String) (wdOpt : Option FsPath)
    (h : (initFS fs tempDir wdOpt).existsPath sp = false) :
    (PyToExeBuilder.init host fs tempDir sp oname wdOpt).1
      = .error (.fileNotFoundError ("主脚本不存在: " ++ pathStr sp))
    ∧ (PyToExeBuilder.init host fs tempDir sp oname wdOpt).2
      = initFS fs tempDir wdOpt
    ∧ (∀ p, wdOpt = some p →
        (PyToExeBuilder.init host fs tempDir sp oname wdOpt).2 = fs)
    ∧ (wdOpt = none →
        (PyToExeBuilder.init host fs tempDir sp oname wdOpt).2.existsPath
          (initWorkDir tempDir wdOpt) = true) := by
  have hv : (initBuilder tempDir sp oname wdOpt).validate_environment host
      (initFS fs tempDir wdOpt)
      = .error (.fileNotFoundError ("主脚本不存在: " ++ pathStr sp)) := by
    unfold PyToExeBuilder.validate_environment
    have hc : (initFS fs tempDir wdOpt).existsPath
        (initBuilder tempDir sp oname wdOpt).script_path = false := h
    rw [if_pos hc]
    rfl
  refine ⟨?_, init_snd host fs tempDir sp oname wdOpt, ?_, ?_⟩
  · unfold PyToExeBuilder.init
    rw [hv]
  · intro p hp
    rw [init_snd, hp]
    rfl
  · intro hn
    rw [init_snd, hn]
    simp [initFS, initWorkDir, FS.mkdtemp, FS.existsPath]

theorem C1_amended_witness :
    ((initFS ⟨[], []⟩ ["tmp", "t"] (some ["w"])).existsPath ["home", "x.py"] = false
      ∧ (PyToExeBuilder.init .linux ⟨[], []⟩ ["tmp", "t"] ["home", "x.py"]
          none (some ["w"])).2 = ⟨[], []⟩)
    ∧ ((initFS ⟨[], []⟩ ["tmp", "t"] none).existsPath ["home", "x.py"] = false
      ∧ (PyToExeBuilder.init .linux ⟨[], []⟩ ["tmp", "t"] ["home", "x.py"]
          none none).2.existsPath (initWorkDir ["tmp", "t"] none) = true) :=
  ⟨⟨by decide,
    (C1_amended .linux ⟨[], []⟩ ["tmp", "t"] ["home", "x.py"] none (some ["w"])
      (by decide)).2.2.1 ["w"] rfl⟩,
   ⟨by decide,
    (C1_amended .linux ⟨[], []⟩ ["tmp", "t"] ["home", "x.py"] none none
      (by decide)).2.2.2 rfl⟩⟩

/-- C3, counterexample: in directory mode (onefile = false) the locator
returns dist/outputName/outputName without any existence check: on an
empty dist/ it yields a path to a file that does not exist, instead of
failing with StopIteration (the ArtifactNotFound of the spec). -/
theorem C3_counterexample :
    PyToExeBuilder.find_output_file
        ⟨["s", "app.py"], "myapp", ["w"], [], [], none, none, true⟩ .linux
        ⟨[["w"], ["w", "dist"]], []⟩ false
      = .ok ["w", "dist", "myapp", "myapp"]
    ∧ FS.existsPath ⟨[["w"], ["w", "dist"]], []⟩ ["w", "dist", "myapp", "myapp"]
      = false := by
  exact ⟨rfl, rfl⟩

/-- C3, amended: in onefile mode the locator returns dist/outputName
(.exe appended on Windows) exactly when that file exists — so a returned
path always exists — and raises StopIteration when no match exists; in
directory mode it returns dist/outputName/outputName[.exe] unconditionally
without checking existence. -/
theorem C3_amended (b : PyToExeBuilder) (host : Platform) (fs : FS) (q : FsPath) :
    (b.find_output_file host fs true = .ok q → fs.existsPath q = true)
    ∧ (host = .windows →
        (fs.existsPath (b.work_dir ++ ["dist"] ++ [b.output_name ++ ".exe"]) = true →
          b.find_output_file host fs true
            = .ok (b.work_dir ++ ["dist"] ++ [b.output_name ++ ".exe"]))
        ∧ (fs.existsPath (b.work_dir ++ ["dist"] ++ [b.output_name ++ ".exe"]) = false →
          b.find_output_file host fs true = .error .stopIteration)
        ∧ b.find_output_file host fs false
            = .ok (b.work_dir ++ ["dist"] ++ [b.output_name, b.output_name ++ ".exe"]))
    ∧ (host ≠ .windows →
        (fs.existsPath (b.work_dir ++ ["dist"] ++ [b.output_name]) = true →
          b.find_output_file host fs true
            = .ok (b.work_dir ++ ["dist"] ++ [b.output_name]))
        ∧ (fs.existsPath (b.work_dir ++ ["dist"] ++ [b.output_name]) = false →
          b.find_output_file host fs true = .error .stopIteration)
        ∧ b.find_output_file host fs false
            = .ok (b.work_dir ++ ["dist"] ++ [b.output_name, b.output_name])) := by
  refine ⟨?_, fun hw => ⟨?_, ?_, ?_⟩, fun hw => ⟨?_, ?_, ?_⟩⟩
  · intro hok
    by_cases hw : host = .windows
    · simp only [PyToExeBuilder.find_output_file, hw] at hok
      simp only [if_true, eq_self_iff_true] at hok
      split at hok
      · cases hok
        assumption
      · exact absurd hok (by simp)
    · simp only [PyToExeBuilder.find_output_file, if_neg hw] at hok
      simp only [if_true, eq_self_iff_true] at hok
      split at hok
      · cases hok
        assumption
      · exact absurd hok (by simp)
  · intro hex
    simp only [List.append_assoc, List.cons_append, List.nil_append] at hex
    simp [PyToExeBuilder.find_output_file, hw, hex]
  · intro hex
    simp only [List.append_assoc, List.cons_append, List.nil_append] at hex
    simp [PyToExeBuilder.find_output_file, hw, hex]
  · simp [PyToExeBuilder.find_output_file, hw]
  · intro hex
    simp only [List.append_assoc, List.cons_append, List.nil_append] at hex
    simp [PyToExeBuilder.find_output_file, hw, hex]
  · intro hex
    simp only [List.append_assoc, List.cons_append, List.nil_append] at hex
    simp [PyToExeBuilder.find_output_file, hw, hex]
  · simp [PyToExeBuilder.find_output_file, hw]

theorem C3_amended_witness :
    (FS.existsPath ⟨[["w"], ["w", "dist"]], [["w", "dist", "myapp"]]⟩
        (["w"] ++ ["dist"] ++ ["myapp"]) = true
      ∧ PyToExeBuilder.find_output_file
          ⟨["s", "app.py"], "myapp", ["w"], [], [], none, none, true⟩ .linux
          ⟨[["w"], ["w", "dist"]], [["w", "dist", "myapp"]]⟩ true
        = .ok (["w"] ++ ["dist"] ++ ["myapp"]))
    ∧ (FS.existsPath ⟨[["w"], ["w", "dist"]], []⟩ (["w"] ++ ["dist"] ++ ["myapp"]) = false
      ∧ PyToExeBuilder.find_output_file
          ⟨["s", "app.py"], "myapp", ["w"], [], [], none, none, true⟩ .linux
          ⟨[["w"], ["w", "dist"]], []⟩ true
        = .error .stopIteration)
    ∧ (FS.existsPath ⟨[["w"], ["w", "dist"]], [["w", "dist", "myapp.exe"]]⟩
        (["w"] ++ ["dist"] ++ ["myapp"] : FsPath) = false
      ∧ PyToExeBuilder.find_output_file
          ⟨["s", "app.py"], "myapp", ["w"], [], [], none, none, true⟩ .windows
          ⟨[["w"], ["w", "dist"]], [["w", "dist", "myapp.exe"]]⟩ true
        = .ok (["w"] ++ ["dist"] ++ ["myapp" ++ ".exe"])) :=
  ⟨⟨by decide,
    (C3_amended ⟨["s", "app.py"], "myapp", ["w"], [], [], none, none, true⟩ .linux
      ⟨[["w"], ["w", "dist"]], [["w", "dist", "myapp"]]⟩ []).2.2 (by decide)
      |>.1 (by decide)⟩,
   ⟨by decide,
    (C3_amended ⟨["s", "app.py"], "myapp", ["w"], [], [], none, none, true⟩ .linux
      ⟨[["w"], ["w", "dist"]], []⟩ []).2.2 (by decide) |>.2.1 (by decide)⟩,
   ⟨by decide,
    (C3_amended ⟨["s", "app.py"], "myapp", ["w"], [], [], none, none, true⟩ .windows
      ⟨[["w"], ["w", "dist"]], [["w", "dist", "myapp.exe"]]⟩ []).2.1 rfl
      |>.1 (by decide)⟩⟩

theorem validate_initBuilder (host : Platform) (fs1 : FS) (tempDir sp : FsPath)
    (oname : Option String) (wdOpt : Option FsPath) :
    (initBuilder tempDir sp oname wdOpt).validate_environment host fs1
      = (if fs1.existsPath sp = false then
          .error (.fileNotFoundError ("主脚本不存在: " ++ pathStr sp))
        else if pySuffix (pathName sp) ≠ ".py" then
          .error (.valueError "输入文件必须是.py脚本")
        else if host.isSupported = false then
          .error (.notImplementedError ("不支持的操作系统: " ++ host.name))
        else .ok ()) := rfl

theorem init_fst_error (host : Platform) (fs : FS) (tempDir sp : FsPath)
    (oname : Option String) (wdOpt : Option FsPath) (e : PyError)
    (hv : (initBuilder tempDir sp oname wdOpt).validate_environment host
      (initFS fs tempDir wdOpt) = .error e) :
    (PyToExeBuilder.init host fs tempDir sp oname wdOpt).1 = .error e := by
  unfold PyToExeBuilder.init
  rw [hv]

theorem init_fst_ok (host : Platform) (fs : FS) (tempDir sp : FsPath)
    (oname : Option String) (wdOpt : Option FsPath)
    (hv : (initBuilder tempDir sp oname wdOpt).validate_environment host
      (initFS fs tempDir wdOpt) = .ok ()) :
    (PyToExeBuilder.init host fs tempDir sp oname wdOpt).1
      = .ok (initBuilder tempDir sp oname wdOpt) := by
  unfold PyToExeBuilder.init
  rw [hv]

/-- C5: construction-time validation performs the three checks in source
order — script existence (FileNotFoundError), .py suffix (ValueError),
supported host (NotImplementedError) — so a script that is both missing
and wrongly suffixed fails with FileNotFoundError, and a request passing
all three constructs successfully; everything runs inside __init__. -/
theorem C5_validation_order (host : Platform) (fs : FS) (tempDir sp : FsPath)
    (oname : Option String) (wdOpt : Option FsPath) :
    ((initFS fs tempDir wdOpt).existsPath sp = false →
      (PyToExeBuilder.init host fs tempDir sp oname wdOpt).1
        = .error (.fileNotFoundError ("主脚本不存在: " ++ pathStr sp)))
    ∧ ((initFS fs tempDir wdOpt).existsPath sp = true →
        pySuffix (pathName sp) ≠ ".py" →
      (PyToExeBuilder.init host fs tempDir sp oname wdOpt).1
        = .error (.valueError "输入文件必须是.py脚本"))
    ∧ ((initFS fs tempDir wdOpt).existsPath sp = true →
        pySuffix (pathName sp) = ".py" → host.isSupported = false →
      (PyToExeBuilder.init host fs tempDir sp oname wdOpt).1
        = .error (.notImplementedError ("不支持的操作系统: " ++ host.name)))
    ∧ ((initFS fs tempDir wdOpt).existsPath sp = true →
        pySuffix (pathName sp) = ".py" → host.isSupported = true →
      exceptOk (PyToExeBuilder.init host fs tempDir sp oname wdOpt).1 = true) := by
  refine ⟨?_, ?_, ?_, ?_⟩
  · intro h1
    apply init_fst_error
    rw [validate_initBuilder, if_pos h1]
  · intro h1 h2
    apply init_fst_error
    rw [validate_initBuilder, if_neg (by simp [h1]), if_pos h2]
  · intro h1 h2 h3
    apply init_fst_error
    rw [validate_initBuilder, if_neg (by simp [h1]), if_neg (by simp [h2]),
      if_pos h3]
  · intro h1 h2 h3
    have hv : (initBuilder tempDir sp oname wdOpt).validate_environment host
        (initFS fs tempDir wdOpt) = .ok () := by
      rw [validate_initBuilder, if_neg (by simp [h1]), if_neg (by simp [h2]),
        if_neg (by simp [h3])]
    rw [init_fst_ok host fs tempDir sp oname wdOpt hv]
    rfl

theorem C5_witness :
    ((initFS ⟨[], []⟩ ["tmp", "t"] (some ["w"])).existsPath
        ["home", "script.txt"] = false
      ∧ (PyToExeBuilder.init .linux ⟨[], []⟩ ["tmp", "t"] ["home", "script.txt"]
          none (some ["w"])).1
        = .error (.fileNotFoundError ("主脚本不存在: " ++ pathStr ["home", "script.txt"])))
    ∧ ((initFS ⟨[], [["home", "script.txt"]]⟩ ["tmp", "t"] (some ["w"])).existsPath
        ["home", "script.txt"] = true
      ∧ (PyToExeBuilder.init .linux ⟨[], [["home", "script.txt"]]⟩ ["tmp", "t"]
          ["home", "script.txt"] none (some ["w"])).1
        = .error (.valueError "输入文件必须是.py脚本"))
    ∧ ((PyToExeBuilder.init (.other "Java") ⟨[], [["home", "app.py"]]⟩ ["tmp", "t"]
          ["home", "app.py"] none (some ["w"])).1
        = .error (.notImplementedError ("不支持的操作系统: " ++ (Platform.other "Java").name)))
    ∧ exceptOk (PyToExeBuilder.init .linux ⟨[], [["home", "app.py"]]⟩ ["tmp", "t"]
          ["home", "app.py"] none (some ["w"])).1 = true :=
  ⟨⟨by decide,
    (C5_validation_order .linux ⟨[], []⟩ ["tmp", "t"] ["home", "script.txt"]
      none (some ["w"])).1 (by decide)⟩,
   ⟨by decide,
    (C5_validation_order .linux ⟨[], [["home", "script.txt"]]⟩ ["tmp", "t"]
      ["home", "script.txt"] none (some ["w"])).2.1 (by decide) (by decide)⟩,
   (C5_validation_order (.other "Java") ⟨[], [["home", "app.py"]]⟩ ["tmp", "t"]
      ["home", "app.py"] none (some ["w"])).2.2.1 (by decide) (by decide) (by decide),
   (C5_validation_order .linux ⟨[], [["home", "app.py"]]⟩ ["tmp", "t"]
      ["home", "app.py"] none (some ["w"])).2.2.2 (by decide) (by decide) (by decide)⟩

theorem applyOp_output_name (o : ConfigOp) (b : PyToExeBuilder) :
    (applyOp o b).output_name = b.output_name := by
  cases o with
  | addDeps ps => rfl
  | addData fl => rfl
  | icon fs p =>
    unfold applyOp PyToExeBuilder.set_icon
    dsimp only
    split <;> rfl
  | version v c d cr => rfl
  | hideCons => rfl
  | detect m => cases m <;> rfl

theorem applyOps_output_name (ops : List ConfigOp) (b : PyToExeBuilder) :
    (applyOps ops b).output_name = b.output_name := by
  induction ops generalizing b with
  | nil => rfl
  | cons o t ih =>
    show (applyOps t (applyOp o b)).output_name = _
    rw [ih, applyOp_output_name]

/-- C8: a successfully constructed request has a non-empty output name —
an explicit non-empty name is kept, and a missing or empty one falls back
to the script stem, which is non-empty whenever validation accepted the
.py suffix — and no sequence of configuration calls (addDependencies,
addDataFiles, setIcon including its failing case, setVersionInfo,
hideConsole, detectDependencies) ever changes it; build reads but never
writes any request field in the source. -/
theorem C8_output_name_nonempty (host : Platform) (fs : FS) (tempDir sp : FsPath)
    (oname : Option String) (wdOpt : Option FsPath) (b : PyToExeBuilder)
    (ops : List ConfigOp)
    (h : (PyToExeBuilder.init host fs tempDir sp oname wdOpt).1 = .ok b) :
    (applyOps ops b).output_name ≠ "" := by
  rw [applyOps_output_name]
  unfold PyToExeBuilder.init at h
  cases hv : (initBuilder tempDir sp oname wdOpt).validate_environment host
      (initFS fs tempDir wdOpt) with
  | error e =>
    rw [hv] at h
    exact absurd h (by simp)
  | ok u =>
    rw [hv] at h
    dsimp only at h
    cases h
    show pyOrStr oname (pyStem (pathName sp)) ≠ ""
    rw [validate_initBuilder] at hv
    by_cases h1 : (initFS fs tempDir wdOpt).existsPath sp = false
    · rw [if_pos h1] at hv
      exact absurd hv (by simp)
    · rw [if_neg h1] at hv
      by_cases h2 : pySuffix (pathName sp) ≠ ".py"
      · rw [if_pos h2] at hv
        exact absurd hv (by simp)
      · exact pyOrStr_ne_empty oname _ (pyStem_ne_empty _ (not_not.mp h2))

theorem C8_witness :
    (PyToExeBuilder.init .linux ⟨[], [["home", "app.py"]]⟩ ["tmp", "t"]
        ["home", "app.py"] none (some ["w"])).1
      = .ok ⟨["home", "app.py"], "app", ["w"], [], [], none, none, true⟩
    ∧ (applyOps [ConfigOp.hideCons, ConfigOp.addDeps ["requests"]]
        ⟨["home", "app.py"], "app", ["w"], [], [], none, none, true⟩).output_name
      ≠ "" :=
  ⟨by decide,
   C8_output_name_nonempty .linux ⟨[], [["home", "app.py"]]⟩ ["tmp", "t"]
     ["home", "app.py"] none (some ["w"]) _
     [ConfigOp.hideCons, ConfigOp.addDeps ["requests"]] (by decide)⟩

theorem hasArgPair_cons (k v x : String) (ys : List String)
    (h : hasArgPair k v ys = true) : hasArgPair k v (x :: ys) = true := by
  cases ys with
  | nil => simp [hasArgPair] at h
  | cons y t =>
    unfold hasArgPair
    rw [h]
    simp

theorem hasArgPair_append (k v : String) (l1 l2 : List String)
    (h : hasArgPair k v l2 = true) : hasArgPair k v (l1 ++ l2) = true := by
  induction l1 with
  | nil => simpa using h
  | cons x t ih => exact hasArgPair_cons k v x (t ++ l2) ih

theorem hasArgPair_here (k v : String) (rest : List String) :
    hasArgPair k v (k :: v :: rest) = true := by
  unfold hasArgPair
  simp

theorem icon_arg_in_args (b : PyToExeBuilder) (p : FsPath) (host : Platform)
    (onefile : Bool) (h : b.icon_path = some p) :
    hasArgPair "--icon" (pathStr p) (b.pyinstaller_args host onefile) = true := by
  unfold PyToExeBuilder.pyinstaller_args
  rw [h]
  simp only [List.append_assoc]
  apply hasArgPair_append
  apply hasArgPair_append
  apply hasArgPair_append
  exact hasArgPair_here _ _ _

/-- C9: setIcon on a nonexistent path raises FileNotFoundError but is not
atomic — self.icon_path is assigned before the existence check, so after
the failed call the field holds the invalid path and a later build's
PyInstaller argument vector contains the pair --icon, that path. -/
theorem C9_set_icon_not_atomic (b : PyToExeBuilder) (fs : FS) (icon : FsPath)
    (host : Platform) (onefile : Bool) (h : fs.existsPath icon = false) :
    (b.set_icon icon fs).1
      = .error (.fileNotFoundError ("图标文件不存在: " ++ pathStr icon))
    ∧ (b.set_icon icon fs).2.icon_path = some icon
    ∧ hasArgPair "--icon" (pathStr icon)
        ((b.set_icon icon fs).2.pyinstaller_args host onefile) = true := by
  have h2 : (b.set_icon icon fs).2.icon_path = some icon := by
    unfold PyToExeBuilder.set_icon
    dsimp only
    split <;> rfl
  refine ⟨?_, h2, icon_arg_in_args _ _ host onefile h2⟩
  unfold PyToExeBuilder.set_icon
  dsimp only
  rw [if_pos h]

theorem C9_witness :
    FS.existsPath ⟨[], []⟩ ["icons", "app.ico"] = false
    ∧ (wbuilder.set_icon ["icons", "app.ico"] ⟨[], []⟩).1
      = .error (.fileNotFoundError ("图标文件不存在: " ++ pathStr ["icons", "app.ico"]))
    ∧ (wbuilder.set_icon ["icons", "app.ico"] ⟨[], []⟩).2.icon_path
      = some ["icons", "app.ico"]
    ∧ hasArgPair "--icon" (pathStr ["icons", "app.ico"])
        ((wbuilder.set_icon ["icons", "app.ico"] ⟨[], []⟩).2.pyinstaller_args
          .windows true) = true := by
  have h := C9_set_icon_not_atomic wbuilder ⟨[], []⟩ ["icons", "app.ico"]
    .windows true (by decide)
  exact ⟨by decide, h.1, h.2.1, h.2.2⟩

theorem existsPath_mono_addFiles (fs : FS) (ps : List FsPath) (p : FsPath)
    (hp : fs.existsPath p = true) : (fs.addFiles ps).existsPath p = true := by
  simp [FS.existsPath, FS.addFiles] at hp ⊢
  tauto

theorem existsPath_mono_writeFile (fs : FS) (q p : FsPath)
    (hp : fs.existsPath p = true) : (fs.writeFile q).existsPath p = true := by
  simp [FS.existsPath, FS.writeFile] at hp ⊢
  tauto

theorem existsPath_mono_mkdir (fs : FS) (q : FsPath) (fs' : FS)
    (h : fs.mkdirExistOk q = .ok fs') (p : FsPath)
    (hp : fs.existsPath p = true) : fs'.existsPath p = true := by
  unfold FS.mkdirExistOk at h
  split at h
  · cases h
    exact hp
  · split at h
    · exact absurd h (by simp)
    · split at h
      · cases h
        simp [FS.existsPath] at hp ⊢
        tauto
      · exact absurd h (by simp)

theorem existsPath_mono_copy2 (fs : FS) (src dst : FsPath) (fs' : FS)
    (h : fs.copy2Into src dst = .ok fs') (p : FsPath)
    (hp : fs.existsPath p = true) : fs'.existsPath p = true := by
  unfold FS.copy2Into at h
  split at h
  · split at h
    · cases h
      simp [FS.existsPath] at hp ⊢
      tauto
    · exact absurd h (by simp)
  · exact absurd h (by simp)

theorem copy2_dst_mem (fs : FS) (src dst : FsPath) (fs' : FS)
    (h : fs.copy2Into src dst = .ok fs') : dst ∈ fs'.dirs := by
  unfold FS.copy2Into at h
  split at h
  · split at h
    · cases h
      assumption
    · exact absurd h (by simp)
  · exact absurd h (by simp)

theorem prepare_mono (b : PyToExeBuilder) (host : Platform) (fs : FS) (p : FsPath)
    (hp : fs.existsPath p = true) :
    ((b.prepare_build_env host fs).2).existsPath p = true := by
  unfold PyToExeBuilder.prepare_build_env
  cases h1 : fs.mkdirExistOk (b.work_dir ++ ["build"]) with
  | error e => exact hp
  | ok fs1 =>
    dsimp only
    have hp1 := existsPath_mono_mkdir fs _ fs1 h1 p hp
    cases h2 : fs1.mkdirExistOk (b.work_dir ++ ["dist"]) with
    | error e => exact hp1
    | ok fs2 =>
      dsimp only
      have hp2 := existsPath_mono_mkdir fs1 _ fs2 h2 p hp1
      cases h3 : fs2.copy2Into b.script_path b.work_dir with
      | error e => exact hp2
      | ok fs3 =>
        dsimp only
        have hp3 := existsPath_mono_copy2 fs2 _ _ fs3 h3 p hp2
        split
        · exact existsPath_mono_writeFile fs3 _ p hp3
        · exact hp3

theorem prepare_ok_wd (b : PyToExeBuilder) (host : Platform) (fs fs' : FS)
    (u : Unit) (h : b.prepare_build_env host fs = (.ok u, fs')) :
    b.work_dir ∈ fs'.dirs := by
  unfold PyToExeBuilder.prepare_build_env at h
  cases h1 : fs.mkdirExistOk (b.work_dir ++ ["build"]) with
  | error e =>
    rw [h1] at h
    exact absurd h (by simp)
  | ok fs1 =>
    rw [h1] at h
    dsimp only at h
    cases h2 : fs1.mkdirExistOk (b.work_dir ++ ["dist"]) with
    | error e =>
      rw [h2] at h
      exact absurd h (by simp)
    | ok fs2 =>
      rw [h2] at h
      dsimp only at h
      cases h3 : fs2.copy2Into b.script_path b.work_dir with
      | error e =>
        rw [h3] at h
        exact absurd h (by simp)
      | ok fs3 =>
        rw [h3] at h
        dsimp only at h
        have hmem := copy2_dst_mem fs2 _ _ fs3 h3
        split at h
        · cases h
          exact hmem
        · cases h
          exact hmem

theorem pyinstaller_mono (b : PyToExeBuilder) (host : Platform) (avail : Bool)
    (run : List String → List FsPath) (fs : FS) (onefile : Bool) (p : FsPath)
    (hp : fs.existsPath p = true) :
    ((b.build_with_pyinstaller host avail run fs onefile).2).existsPath p
      = true := by
  unfold PyToExeBuilder.build_with_pyinstaller
  split
  · exact existsPath_mono_addFiles fs _ p hp
  · exact hp

theorem pyinstaller_dirs (b : PyToExeBuilder) (host : Platform) (avail : Bool)
    (run : List String → List FsPath) (fs : FS) (onefile : Bool) :
    ((b.build_with_pyinstaller host avail run fs onefile).2).dirs = fs.dirs := by
  unfold PyToExeBuilder.build_with_pyinstaller
  split
  · rfl
  · rfl

theorem rmtree_kills (fs : FS) (root p : FsPath)
    (h : root.isPrefixOf p = true) :
    (fs.rmtree root).existsPath p = false := by
  simp [FS.rmtree, FS.existsPath, List.mem_filter, h]

theorem cleanup_kills (b : PyToExeBuilder) (fs : FS) (p : FsPath)
    (hwd : b.work_dir ∈ fs.dirs) (h : b.work_dir.isPrefixOf p = true) :
    (b.cleanup fs).existsPath p = false := by
  unfold PyToExeBuilder.cleanup
  rw [if_pos]
  · exact rmtree_kills fs _ p h
  · simp [FS.existsPath]
    exact Or.inl hwd

/-- C2: the claim — one invocation strategy per supported platform,
selected by runtime host-platform detection, each invoking the backend
and returning the artifact — holds only for Windows.  build does dispatch
on platform.system(), and the Windows branch runs the PyInstaller
strategy (raising RuntimeError, the MissingBuildTool, when the module is
absent), but the Linux and Darwin branches call self._build_with_linux
and self._build_with_mac, which the class never defines: whenever
workspace preparation succeeds on those hosts, build raises
AttributeError instead of running any strategy. -/
theorem C2_missing_platform_strategies (b : PyToExeBuilder) (avail : Bool)
    (run : List String → List FsPath) (fs : FS) (onefile clean : Bool) :
    ((b.prepare_build_env .linux fs).1 = .ok () →
      (b.build .linux avail run fs onefile clean).1
        = .error (.attributeError "_build_with_linux"))
    ∧ ((b.prepare_build_env .darwin fs).1 = .ok () →
      (b.build .darwin avail run fs onefile clean).1
        = .error (.attributeError "_build_with_mac"))
    ∧ (avail = false → (b.prepare_build_env .windows fs).1 = .ok () →
      (b.build .windows avail run fs onefile clean).1
        = .error (.runtimeError "请先安装PyInstaller: pip install pyinstaller")) := by
  refine ⟨?_, ?_, ?_⟩
  · intro hok
    unfold PyToExeBuilder.build
    rcases hp : b.prepare_build_env .linux fs with ⟨pr, fs1⟩
    rw [hp] at hok
    dsimp only at hok
    subst hok
    dsimp only
    rw [if_neg (by decide), if_pos rfl]
  · intro hok
    unfold PyToExeBuilder.build
    rcases hp : b.prepare_build_env .darwin fs with ⟨pr, fs1⟩
    rw [hp] at hok
    dsimp only at hok
    subst hok
    dsimp only
    rw [if_neg (by decide), if_neg (by decide), if_pos rfl]
  · intro hav hok
    subst hav
    unfold PyToExeBuilder.build
    rcases hp : b.prepare_build_env .windows fs with ⟨pr, fs1⟩
    rw [hp] at hok
    dsimp only at hok
    subst hok
    dsimp only
    rw [if_pos rfl]
    unfold PyToExeBuilder.build_with_pyinstaller
    rw [if_neg (by simp)]

theorem C2_witness :
    ((wbuilder.prepare_build_env .linux wfs).1 = .ok ()
      ∧ (wbuilder.build .linux true runNone wfs true true).1
        = .error (.attributeError "_build_with_linux"))
    ∧ ((wbuilder.prepare_build_env .darwin wfs).1 = .ok ()
      ∧ (wbuilder.build .darwin true runNone wfs true true).1
        = .error (.attributeError "_build_with_mac"))
    ∧ ((wbuilder.prepare_build_env .windows wfs).1 = .ok ()
      ∧ (wbuilder.build .windows false runNone wfs true true).1
        = .error (.runtimeError "请先安装PyInstaller: pip install pyinstaller")) :=
  ⟨⟨by decide,
    (C2_missing_platform_strategies wbuilder true runNone wfs true true).1
      (by decide)⟩,
   ⟨by decide,
    (C2_missing_platform_strategies wbuilder true runNone wfs true true).2.1
      (by decide)⟩,
   ⟨by decide,
    (C2_missing_platform_strategies wbuilder false runNone wfs true true).2.2
      rfl (by decide)⟩⟩

/-- C4: on every failure path of build, cleanup never runs — every path
that existed on disk before the call (the scratch workDir in particular)
still exists after the failed call, e.g. when the backend module is
missing on Windows and RuntimeError (MissingBuildTool) surfaces — and on
the success path with clean = true the workDir and everything below it
are recursively removed before build returns. -/
theorem C4_cleanup_policy (b : PyToExeBuilder) (host : Platform) (avail : Bool)
    (run : List String → List FsPath) (fs : FS) (onefile clean : Bool)
    (p : FsPath) (e : PyError) (out : FsPath) :
    ((b.build host avail run fs onefile clean).1 = .error e →
      fs.existsPath p = true →
      ((b.build host avail run fs onefile clean).2).existsPath p = true)
    ∧ (clean = true → (b.build host avail run fs onefile clean).1 = .ok out →
      b.work_dir.isPrefixOf p = true →
      ((b.build host avail run fs onefile clean).2).existsPath p = false) := by
  unfold PyToExeBuilder.build
  rcases hprep : b.prepare_build_env host fs with ⟨pr, fs1⟩
  have hmono1 : fs.existsPath p = true → fs1.existsPath p = true := by
    intro hp
    have h := prepare_mono b host fs p hp
    rw [hprep] at h
    exact h
  cases pr with
  | error e0 =>
    constructor
    · intro _ hp
      exact hmono1 hp
    · intro _ hok
      exact absurd hok (by simp)
  | ok u =>
    have hwd1 : b.work_dir ∈ fs1.dirs := prepare_ok_wd b host fs fs1 u hprep
    dsimp only
    rcases hstep : (if host = .windows then
        b.build_with_pyinstaller host avail run fs1 onefile
      else if host = .linux then (.error (.attributeError "_build_with_linux"), fs1)
      else if host = .darwin then (.error (.attributeError "_build_with_mac"), fs1)
      else (.error (.notImplementedError "不支持的操作系统"), fs1)) with ⟨st, fs2⟩
    have hstep2 : fs2.dirs = fs1.dirs
        ∧ (∀ q, fs1.existsPath q = true → fs2.existsPath q = true) := by
      by_cases hw : host = .windows
      · rw [if_pos hw] at hstep
        have hfs2 : fs2 = (b.build_with_pyinstaller host avail run fs1 onefile).2 := by
          rw [hstep]
        constructor
        · rw [hfs2]
          exact pyinstaller_dirs b host avail run fs1 onefile
        · intro q hq
          rw [hfs2]
          exact pyinstaller_mono b host avail run fs1 onefile q hq
      · rw [if_neg hw] at hstep
        by_cases hl : host = .linux
        · rw [if_pos hl] at hstep
          cases hstep
          exact ⟨rfl, fun q hq => hq⟩
        · rw [if_neg hl] at hstep
          by_cases hd : host = .darwin
          · rw [if_pos hd] at hstep
            cases hstep
            exact ⟨rfl, fun q hq => hq⟩
          · rw [if_neg hd] at hstep
            cases hstep
            exact ⟨rfl, fun q hq => hq⟩
    cases st with
    | error e2 =>
      constructor
      · intro _ hp
        exact hstep2.2 p (hmono1 hp)
      · intro _ hok
        exact absurd hok (by simp)
    | ok out2 =>
      constructor
      · intro herr
        exact absurd herr (by simp)
      · intro hclean _ hpref
        subst hclean
        show (b.cleanup fs2).existsPath p = false
        apply cleanup_kills
        · rw [hstep2.1]
          exact hwd1
        · exact hpref

theorem C4_witness :
    ((wbuilder.build .windows false runNone wfs true true).1
        = .error (.runtimeError "请先安装PyInstaller: pip install pyinstaller")
      ∧ wfs.existsPath ["w"] = true
      ∧ (wbuilder.build .windows false runNone wfs true true).2.existsPath ["w"]
        = true)
    ∧ ((wbuilder.build .windows true runApp wfs true true).1
        = .ok ["w", "dist", "app.exe"]
      ∧ (["w"] : FsPath).isPrefixOf ["w", "dist", "app.exe"] = true
      ∧ (wbuilder.build .windows true runApp wfs true true).2.existsPath
          ["w", "dist", "app.exe"] = false
      ∧ (wbuilder.build .windows true runApp wfs true true).2.existsPath ["w"]
        = false) :=
  ⟨⟨by decide, by decide,
    (C4_cleanup_policy wbuilder .windows false runNone wfs true true ["w"]
      (.runtimeError "请先安装PyInstaller: pip install pyinstaller") []).1
      (by decide) (by decide)⟩,
   ⟨by decide, by decide,
    (C4_cleanup_policy wbuilder .windows true runApp wfs true true
      ["w", "dist", "app.exe"] .stopIteration ["w", "dist", "app.exe"]).2
      rfl (by decide) (by decide),
    (C4_cleanup_policy wbuilder .windows true runApp wfs true true ["w"]
      .stopIteration ["w", "dist", "app.exe"]).2 rfl (by decide) (by decide)⟩⟩

end PyTretool
